import Mathlib

/-!
Verification development for the placement-portal repository.

The repository is a Streamlit placement portal.  The parts relevant to the
properties verified here are embedded shallowly below:

* `backend/chatbot.py` of the StudBud app ("chatbot copy.py"): the
  `ConversationMemory` bounded message log with keyword-derived context, the
  streaming `PlacementChatbot.get_response` pipeline and
  `_generate_suggestions`.
* `backend/chatbot.py` of the College-Counseling app: the mock-interview
  state machine (`start_mock_interview` / `process_mock_interview_response`)
  and `analyze_resume`.
* `backend/jobs.py`: `JobManager.get_jobs` and `get_job_statistics` with
  their digit-run salary parsing.
* `backend/auth.py`: `AuthManager.authenticate_user`.
* `backend/applications.py`: `ApplicationManager.create_application`,
  `update_application`, `delete_application`.

Embedding conventions:

* Python strings are Lean `String`s; Python's `str.lower()`, `str.title()`
  and the substring operator `in` are reimplemented over `String.data`
  (`pyLower`, `pyTitle`, `strContains`) for the ASCII text the application
  manipulates, because the corresponding core-library functions do not reduce
  under kernel evaluation.
* Python `set`s of strings are embedded as duplicate-free lists in insertion
  order (`insertNew`); only membership, growth and "pick an element" are ever
  used by the code.
* The external Ollama model client is an oracle: a streaming chat call is a
  list of incoming chunk contents plus an optional failure (`get_response`),
  a one-shot `client.generate(...).get('text', d)` call is a function
  `gen : String → Option String` applied to the prompt.
* `random.random`-based shuffling is an oracle `shuffle` function; theorems
  that depend on it assume only that it permutes its input.
* Python exceptions that escape a function are `Except.error`; wall-clock
  reads (`datetime.now()`) are explicit arguments.  Message timestamp /
  metadata dictionaries carry only the clock and the message type and are
  observed by no claim, so they are not carried in the embedded `Message`.
* DataFrames are lists of typed rows in file order; a pandas column `apply`
  is `applyCol`, which propagates the first raised exception.
-/

namespace Placement

/-! ### Python string primitives (ASCII) -/

/-- ASCII lower-casing of one character, as `str.lower()` does on the ASCII
vocabulary used throughout the source. -/
def lcChar (c : Char) : Char :=
  if 'A' ≤ c && c ≤ 'Z' then Char.ofNat (c.toNat + 32) else c

/-- ASCII upper-casing of one character. -/
def ucChar (c : Char) : Char :=
  if 'a' ≤ c && c ≤ 'z' then Char.ofNat (c.toNat - 32) else c

/-- `s.lower()`. -/
def pyLower (s : String) : String := ⟨s.data.map lcChar⟩

/-- Does `hay` start with `needle`? -/
def matchesAt : List Char → List Char → Bool
  | [], _ => true
  | _ :: _, [] => false
  | a :: as, b :: bs => a == b && matchesAt as bs

/-- Does `needle` occur contiguously inside `hay`? -/
def hasSubList (needle : List Char) : List Char → Bool
  | [] => matchesAt needle []
  | b :: bs => matchesAt needle (b :: bs) || hasSubList needle bs

/-- Python's substring test `needle in hay`. -/
def strContains (hay needle : String) : Bool := hasSubList needle.data hay.data

/-- One step of `str.title()`: the boolean says whether the previous character
was alphabetic. -/
def pyTitleAux : Bool → List Char → List Char
  | _, [] => []
  | prevAlpha, c :: rest =>
    let isAl := c.isAlpha
    (if isAl then (if prevAlpha then lcChar c else ucChar c) else c)
      :: pyTitleAux isAl rest

/-- `s.title()` (ASCII): first letter of every alphabetic run upper-cased,
the rest lower-cased. -/
def pyTitle (s : String) : String := ⟨pyTitleAux false s.data⟩

/-- Insertion into a Python `set` embedded as a duplicate-free list in
insertion order. -/
def insertNew (l : List String) (x : String) : List String :=
  if x ∈ l then l else l ++ [x]

/-! ### Chat messages (`MessageType`, `Message`) -/

/-- `MessageType` enum of both chatbot modules (the union of the two). -/
inductive MessageType where
  | TEXT | QUICK_REPLY | SUGGESTION | ERROR | SYSTEM | RICH_CONTENT
  | CODE | INTERVIEW | RESOURCE | RESUME_FEEDBACK | JOB_MATCH
  deriving DecidableEq, Repr

/-- A message `content` is normally a string, but StudBud's `get_response`
passes the suggestion *list* itself as the content of the `SUGGESTION`
message, so the content field is a sum. -/
inductive MsgContent where
  | text (s : String)
  | items (l : List String)
  deriving DecidableEq, Repr

/-- The `Message` dataclass.  The `timestamp`/`metadata` fields (wall-clock
reads plus the message type, observed by no verified property) are omitted;
see the embedding conventions above. -/
structure Message where
  content : MsgContent
  type : MessageType
  sender : String := "bot"
  deriving DecidableEq, Repr

/-! ### StudBud `ConversationMemory` -/

/-- The `conversation_context` dictionary: three grow-only label sets and the
single current-focus label. -/
structure ConversationContext where
  topics : List String
  skills_mentioned : List String
  companies_mentioned : List String
  current_focus : Option String
  deriving DecidableEq, Repr

/-- The `topics` keyword table of `_update_context`, in dict insertion
order. -/
def topicsTable : List (String × List String) :=
  [("technical", ["algorithm", "coding", "programming", "system design", "development"]),
   ("interview", ["interview", "questions", "preparation", "practice"]),
   ("career", ["career", "growth", "path", "future", "goals"]),
   ("skills", ["skills", "learning", "technology", "tools"]),
   ("companies", ["company", "organization", "workplace", "employer"]),
   ("placement", ["placement", "job", "position", "opportunity"])]

/-- The `skills` vocabulary of `_update_context`. -/
def skillsVocab : List String :=
  ["python", "java", "javascript", "react", "node", "sql",
   "machine learning", "ai", "cloud", "aws", "azure",
   "system design", "algorithms", "data structures"]

/-- The `companies` vocabulary of `_update_context`. -/
def companiesVocab : List String :=
  ["google", "microsoft", "amazon", "meta", "apple",
   "netflix", "uber", "twitter", "linkedin"]

/-- The `focus_indicators` table of `_update_context`, in dict insertion
order (this order is the fixed priority order). -/
def focus_indicators : List (String × List String) :=
  [("technical", ["how to", "example", "code", "implement"]),
   ("conceptual", ["explain", "what is", "understand", "concept"]),
   ("practical", ["apply", "use", "practice", "real world"]),
   ("career", ["career", "job", "future", "growth"])]

/-- `any(keyword in content_lower for keyword in keywords)`. -/
def anyKeywordIn (contentLower : String) (keywords : List String) : Bool :=
  keywords.any (fun k => strContains contentLower k)

/-- The final `for focus, indicators in focus_indicators.items(): ... break`
loop of `_update_context`: the first category in table order with a matching
indicator becomes the focus; if none matches the previous focus is kept. -/
def focusScan (prev : Option String) (contentLower : String) :
    List (String × List String) → Option String
  | [] => prev
  | p :: rest =>
    if anyKeywordIn contentLower p.2 then some p.1
    else focusScan prev contentLower rest

/-- `ConversationMemory._update_context`. -/
def update_context (ctx : ConversationContext) (content : String) :
    ConversationContext :=
  let contentLower := pyLower content
  { topics :=
      topicsTable.foldl
        (fun acc p => if anyKeywordIn contentLower p.2 then insertNew acc p.1 else acc)
        ctx.topics
    skills_mentioned :=
      skillsVocab.foldl
        (fun acc sk => if strContains contentLower sk then insertNew acc sk else acc)
        ctx.skills_mentioned
    companies_mentioned :=
      companiesVocab.foldl
        (fun acc co => if strContains contentLower co then insertNew acc co else acc)
        ctx.companies_mentioned
    current_focus := focusScan ctx.current_focus contentLower focus_indicators }

/-- `ConversationMemory` state: the bounded message log, its capacity and the
derived context.  (`context_window`, `current_topics` and `user_preferences`
are initialised and never read by the verified code paths.) -/
structure ConversationMemory where
  messages : List Message
  max_messages : Nat
  conversation_context : ConversationContext
  deriving DecidableEq, Repr

/-- `ConversationMemory.__init__(max_messages)`. -/
def ConversationMemory.init (max_messages : Nat := 50) : ConversationMemory :=
  { messages := []
    max_messages := max_messages
    conversation_context := ⟨[], [], [], none⟩ }

/-- `ConversationMemory.add_message`: append, evict the oldest entry when the
log exceeds its capacity, and re-derive context for plain-text turns.  (In the
source a `TEXT` message always carries string content; the `items` arm leaves
the context unchanged, matching the `message.type == MessageType.TEXT`
guard.) -/
def add_message (mem : ConversationMemory) (message : Message) :
    ConversationMemory :=
  let appended := mem.messages ++ [message]
  let messages := if appended.length > mem.max_messages then appended.drop 1 else appended
  match message.type, message.content with
  | MessageType.TEXT, MsgContent.text s =>
    { mem with messages := messages
               conversation_context := update_context mem.conversation_context s }
  | _, _ => { mem with messages := messages }

/-! ### StudBud `PlacementChatbot`: suggestions and the streaming response

Prompt assembly (`prepare_response_prompt`, `_get_format_instructions`) flows
only into the external model client, which is modelled by the chunk-stream
argument of `get_response`, so it is not embedded. -/

/-- The suggestion list built by `PlacementChatbot._generate_suggestions`
before de-duplication and random sampling: canned strings for each detected
topic, plus canned strings for the first accumulated company and the first
accumulated skill (`list(set)[0]` on the embedded insertion-ordered set is its
head). -/
def suggestionCandidates (ctx : ConversationContext) : List String :=
  (if "technical" ∈ ctx.topics then
    ["Can you provide more coding examples?",
     "What are the best practices for this?",
     "How can I practice these concepts?"]
   else []) ++
  (if "interview" ∈ ctx.topics then
    ["What are common follow-up questions?",
     "How should I handle behavioral questions?",
     "Can we do a mock interview?"]
   else []) ++
  (if "career" ∈ ctx.topics then
    ["What skills should I focus on next?",
     "How can I prepare for this role?",
     "What are the growth opportunities?"]
   else []) ++
  (match ctx.companies_mentioned.head? with
   | some company =>
     ["What is " ++ pyTitle company ++ "\x27s interview process?",
      "What skills does " ++ pyTitle company ++ " value?",
      "How can I prepare for " ++ pyTitle company ++ "?"]
   | none => []) ++
  (match ctx.skills_mentioned.head? with
   | some skill =>
     ["How can I master " ++ skill ++ "?",
      "What projects can I build with " ++ skill ++ "?",
      "Which companies value " ++ skill ++ "?"]
   | none => [])

/-- `PlacementChatbot._generate_suggestions` (the `query`/`response` arguments
of the source function are never read).  `list(set(...))` followed by
`sorted(..., key=lambda _: random.random())` is an arbitrary reordering of the
de-duplicated list: the oracle `shuffle` stands for that composition and is
assumed (where it matters) to permute its input. -/
def generate_suggestions (ctx : ConversationContext)
    (shuffle : List String → List String) : List String :=
  let suggestions := suggestionCandidates ctx
  if suggestions.isEmpty then []
  else ((shuffle suggestions.dedup).take 3)

/-- Error message of StudBud `get_response`'s `except` arm. -/
def responseErrorText (e : String) : String :=
  "I apologize, but I encountered an error: " ++ e ++ ". Please try again."

/-- The `for chunk in response` loop: each chunk with truthy
(`is not None and nonempty`) content is accumulated into the full response
and re-emitted as a `TEXT` message.  Returns the accumulated full message and
the emitted messages, given the accumulator so far. -/
def processChunks (cur : String) : List (Option String) → String × List Message
  | [] => (cur, [])
  | none :: rest => processChunks cur rest
  | some s :: rest =>
    if s = "" then processChunks cur rest
    else
      ((processChunks (cur ++ s) rest).1,
        ⟨MsgContent.text s, MessageType.TEXT, "bot"⟩ :: (processChunks (cur ++ s) rest).2)

/-- StudBud `PlacementChatbot.get_response`.  The streamed reply of
`client.chat` is the list `chunks` of chunk contents delivered before the
stream either ends normally (`failure = none`) or raises (`failure = some e`,
covering a raise at the call itself with `chunks = []`).  Returns the updated
conversation memory and the generator's yielded messages in order. -/
def get_response (mem : ConversationMemory) (query : String)
    (chunks : List (Option String)) (failure : Option String)
    (shuffle : List String → List String) :
    ConversationMemory × List Message :=
  let mem1 := add_message mem ⟨MsgContent.text query, MessageType.TEXT, "user"⟩
  let streamed := processChunks "" chunks
  match failure with
  | some e =>
    (mem1, streamed.2 ++ [⟨MsgContent.text (responseErrorText e), MessageType.ERROR, "bot"⟩])
  | none =>
    let mem2 := add_message mem1 ⟨MsgContent.text streamed.1, MessageType.TEXT, "bot"⟩
    let suggestions := generate_suggestions mem2.conversation_context shuffle
    (mem2,
      streamed.2 ++
        if suggestions.isEmpty then []
        else [⟨MsgContent.items suggestions, MessageType.SUGGESTION, "bot"⟩])

/-! ### College-Counseling `PlacementChatbot`: mock interview and resume
analysis

`client.generate(...).get('text', default)` is the oracle
`gen : String → Option String` applied to the prompt. -/

/-- The mock-interview slice of the `PlacementChatbot` instance state. -/
structure MockInterviewState where
  is_mock_interview_active : Bool
  mock_interview_questions : List String
  current_question_index : Nat
  deriving DecidableEq, Repr

/-- `PlacementChatbot.get_mock_interview_questions`: the fixed 3-question
bank. -/
def get_mock_interview_questions : List String :=
  ["Can you explain the concept of polymorphism in object-oriented programming?",
   "How does a binary search algorithm work?",
   "What are the differences between TCP and UDP protocols?"]

/-- The prompt of `PlacementChatbot.evaluate_answer` for a (question, answer)
pair. -/
def evaluationPrompt (question answer : String) : String :=
  "Evaluate the following answer for correctness, completeness, and clarity. Provide constructive feedback.\n\nQuestion: "
    ++ question ++ "\nAnswer: " ++ answer ++ "\n\nFeedback:"

/-- `PlacementChatbot.evaluate_answer`: critique of the user's answer to
`questions[current_question_index - 1]`.  (The source indexes the list
directly; the flow only ever does so in bounds, and the embedding defaults an
out-of-range read to `""`.) -/
def evaluate_answer (gen : String → Option String) (s : MockInterviewState)
    (user_answer : String) : String :=
  let prompt :=
    evaluationPrompt (s.mock_interview_questions.getD (s.current_question_index - 1) "")
      user_answer
  (gen prompt).getD "Unable to provide feedback at this time."

/-- `PlacementChatbot.start_mock_interview`: activate the state machine on
the fixed question bank and emit question 1. -/
def start_mock_interview (_s : MockInterviewState) :
    MockInterviewState × List Message :=
  let questions := get_mock_interview_questions
  let question := questions.getD 0 ""
  (⟨true, questions, 1⟩,
   [⟨MsgContent.text ("Let\x27s begin the mock technical interview.\n\n**Question 1:** " ++ question),
     MessageType.INTERVIEW, "bot"⟩])

/-- `PlacementChatbot.process_mock_interview_response`: emit model feedback on
the answer, then either the next question or — when the bank is exhausted —
deactivate and emit the closing message. -/
def process_mock_interview_response (gen : String → Option String)
    (s : MockInterviewState) (user_answer : String) :
    MockInterviewState × List Message :=
  let evaluation := evaluate_answer gen s user_answer
  let feedback : Message :=
    ⟨MsgContent.text ("**Feedback:** " ++ evaluation), MessageType.INTERVIEW, "bot"⟩
  if s.current_question_index < s.mock_interview_questions.length then
    let question := s.mock_interview_questions.getD s.current_question_index ""
    let newIndex := s.current_question_index + 1
    ({ s with current_question_index := newIndex },
     [feedback,
      ⟨MsgContent.text ("**Question " ++ toString newIndex ++ ":** " ++ question),
       MessageType.INTERVIEW, "bot"⟩])
  else
    ({ s with is_mock_interview_active := false },
     [feedback,
      ⟨MsgContent.text "This concludes the mock interview. Great job! If you\x27d like to practice more, let me know.",
       MessageType.INTERVIEW, "bot"⟩])

/-- Summarisation prompt of `PlacementChatbot.analyze_resume`. -/
def summaryPromptOf (resume_text : String) : String :=
  "Summarize the following resume in 1000 characters or less:\n\n" ++ resume_text
    ++ "\n\nSummary:"

/-- Critique prompt of `PlacementChatbot.analyze_resume`. -/
def critiquePromptOf (resume_text : String) : String :=
  "Analyze the following resume and provide suggestions for improvement:\n\n"
    ++ resume_text ++ "\n\nSuggestions:"

/-- `resume_text[:n]`. -/
def strTake (s : String) (n : Nat) : String := ⟨s.data.take n⟩

/-- `PlacementChatbot.analyze_resume`.  Returns the trace of prompts sent to
`client.generate` (in call order) together with the yielded messages.  A
resume longer than `max_resume_length = 1000` characters is first summarised;
the critique is then requested on the (possibly summarised) text and emitted
as a single `RESUME_FEEDBACK` message. -/
def analyze_resume (gen : String → Option String) (resume_uploaded : Bool)
    (user_resume_text : String) : List String × List Message :=
  if resume_uploaded && user_resume_text ≠ "" then
    let resume_text := user_resume_text
    let max_resume_length := 1000
    if resume_text.length > max_resume_length then
      let summary_prompt := summaryPromptOf resume_text
      let resume_text2 := (gen summary_prompt).getD (strTake resume_text max_resume_length)
      let prompt := critiquePromptOf resume_text2
      ([summary_prompt, prompt],
       [⟨MsgContent.text ((gen prompt).getD "Unable to analyze resume at this time."),
         MessageType.RESUME_FEEDBACK, "bot"⟩])
    else
      let prompt := critiquePromptOf resume_text
      ([prompt],
       [⟨MsgContent.text ((gen prompt).getD "Unable to analyze resume at this time."),
         MessageType.RESUME_FEEDBACK, "bot"⟩])
  else
    ([],
     [⟨MsgContent.text "I haven\x27t received your resume yet. Please upload it, and then ask me to analyze it.",
       MessageType.ERROR, "bot"⟩])

/-! ### StudBud `backend/jobs.py`

`re.findall(r'\d+', x)` is `reFindallDigits`; `float(...[0])` /
`float(...[-1])` on a digit run is exact, so salaries are rationals.  The
`posted_date` column is carried as an abstract totally ordered timestamp
(`Int`): `get_jobs` orders the raw ISO date strings lexicographically and
`get_job_statistics` orders their `pd.to_datetime` images, and both orders
agree with this abstraction.  A raised `IndexError` is `Except.error`. -/

/-- ASCII decimal digit test (`\d` on the data at hand). -/
def isDigitChar (c : Char) : Bool := '0' ≤ c && c ≤ '9'

/-- Accumulator-passing scanner for maximal digit runs (`cur` is the current
run, reversed). -/
def digitRunsAux (cur : List Char) : List Char → List String
  | [] => if cur.isEmpty then [] else [⟨cur.reverse⟩]
  | c :: rest =>
    if isDigitChar c then digitRunsAux (c :: cur) rest
    else (if cur.isEmpty then [] else [⟨cur.reverse⟩]) ++ digitRunsAux [] rest

/-- `re.findall(r'\d+', s)`: the maximal digit runs of `s`, left to right. -/
def reFindallDigits (s : String) : List String := digitRunsAux [] s.data

/-- Numeric value of a digit run. -/
def digitsToNat (s : String) : Nat :=
  s.data.foldl (fun n c => n * 10 + (c.toNat - 48)) 0

/-- The exception text of a Python `IndexError` on an empty `findall`
result. -/
def indexErrorMsg : String := "IndexError: list index out of range"

/-- A row of `data/jobs.csv` as `JobManager` reads it. -/
structure JobRow where
  id : String
  title : String
  company : String
  location : String
  salary_range : String
  job_type : String
  posted_date : Int
  description : String
  skills : String
  status : String
  deriving DecidableEq, Repr

/-- A pandas column `apply`: evaluate `f` on every row in order, propagating
the first raised exception. -/
def applyCol {α β : Type} (f : α → Except String β) :
    List α → Except String (List β)
  | [] => Except.ok []
  | r :: rest => do
    let v ← f r
    let vs ← applyCol f rest
    Except.ok (v :: vs)

/-- `lambda x: float(re.findall(r'\d+', x)[0])` on the `salary_range`
column. -/
def salaryFirstRun (r : JobRow) : Except String ℚ :=
  match (reFindallDigits r.salary_range).head? with
  | some d => Except.ok (digitsToNat d : ℚ)
  | none => Except.error indexErrorMsg

/-- `lambda x: float(re.findall(r'\d+', x)[-1])` on the `salary_range`
column. -/
def salaryLastRun (r : JobRow) : Except String ℚ :=
  match (reFindallDigits r.salary_range).getLast? with
  | some d => Except.ok (digitsToNat d : ℚ)
  | none => Except.error indexErrorMsg

/-- The `filters` dictionary of `JobManager.get_jobs`, with the `.get`
defaults of the source (`salary_range` defaults to `(0, 100)`, `sort_by` to
`"Most Recent"`). -/
structure JobFilters where
  search_query : String := ""
  job_types : List String := []
  locations : List String := []
  salary_range : ℚ × ℚ := (0, 100)
  sort_by : String := "Most Recent"

/-- A job row with its derived `salary_min` / `salary_max` columns. -/
structure JobEntry where
  row : JobRow
  salary_min : ℚ
  salary_max : ℚ
  deriving DecidableEq, Repr

/-- `JobManager.get_jobs`: derive the numeric salary columns on a copy of the
whole table (this happens before and regardless of any filtering), then apply
the optional search / type / location / salary / sort filters.  (The pandas
substring search is embedded as a plain substring test on the lower-cased
text; the queries of the application carry no regex metacharacters.) -/
def get_jobs (rows : List JobRow) (filters : Option JobFilters) :
    Except String (List JobEntry) := do
  let mins ← applyCol salaryFirstRun rows
  let maxs ← applyCol salaryLastRun rows
  let df := (rows.zip (mins.zip maxs)).map fun p => JobEntry.mk p.1 p.2.1 p.2.2
  match filters with
  | none => Except.ok df
  | some f =>
    let q := pyLower f.search_query
    let df := if q ≠ "" then
        df.filter (fun e =>
          strContains (pyLower e.row.title) q ||
          strContains (pyLower e.row.company) q ||
          strContains (pyLower e.row.skills) q)
      else df
    let df := if f.job_types ≠ [] then
        df.filter (fun e => f.job_types.contains e.row.job_type) else df
    let df := if f.locations ≠ [] then
        df.filter (fun e => f.locations.contains e.row.location) else df
    let df := df.filter (fun e =>
        decide (f.salary_range.1 ≤ e.salary_min) && decide (e.salary_max ≤ f.salary_range.2))
    let df :=
      if f.sort_by = "Most Recent" then
        df.mergeSort (fun a b => decide (b.row.posted_date ≤ a.row.posted_date))
      else if f.sort_by = "Salary (High to Low)" then
        df.mergeSort (fun a b =>
          decide ((b.salary_min + b.salary_max) / 2 ≤ (a.salary_min + a.salary_max) / 2))
      else if f.sort_by = "Salary (Low to High)" then
        df.mergeSort (fun a b =>
          decide ((a.salary_min + a.salary_max) / 2 ≤ (b.salary_min + b.salary_max) / 2))
      else df
    Except.ok df

/-- The statistics dictionary built by `get_job_statistics`.  The mean of an
empty column is pandas `NaN`, embedded as `none`. -/
structure JobStatistics where
  active_jobs : Nat
  companies : Nat
  recent_jobs : Nat
  salary_avg : Option ℚ
  deriving DecidableEq, Repr

/-- `get_job_statistics` on the loaded table (`now` is `datetime.now()`;
`recent_jobs` counts postings within the trailing 7 days). -/
def get_job_statistics (rows : List JobRow) (now : Int) :
    Except String JobStatistics := do
  let mins ← applyCol salaryFirstRun rows
  let maxs ← applyCol salaryLastRun rows
  Except.ok
    { active_jobs := rows.length
      companies := (rows.map (fun r => r.company)).dedup.length
      recent_jobs := (rows.filter (fun r => decide (now - 7 ≤ r.posted_date))).length
      salary_avg :=
        if rows.length = 0 then none
        else some ((((mins.zip maxs).map (fun p => (p.1 + p.2) / 2)).sum) / rows.length) }

/-! ### StudBud `backend/auth.py` -/

/-- A row of `data/users.csv`. -/
structure UserRec where
  user_id : String
  email : String
  password : String
  role : String
  name : String
  department : String
  year : String
  created_at : String
  last_login : String
  deriving DecidableEq, Repr

/-- The `{'user_id', 'name', 'role'}` dictionary a successful login
returns. -/
structure UserInfo where
  user_id : String
  name : String
  role : String
  deriving DecidableEq, Repr

/-- `AuthManager.authenticate_user`.  Look the user up by case-insensitive
email equality; compare the plaintext password; on success stamp `last_login`
(the source's update mask compares the stored email to the supplied string
*case-sensitively*) and return the first matching user's id, name and role.
Returns the `(success, message, user_info)` triple together with the users
table after the call (`_save_users` rewrites the file with exactly that
table). -/
def authenticate_user (users_df : List UserRec) (email password now : String) :
    (Bool × String × Option UserInfo) × List UserRec :=
  match (users_df.filter (fun u => pyLower u.email == pyLower email)).head? with
  | none => ((false, "Invalid email or password", none), users_df)
  | some user_data =>
    if password ≠ user_data.password then
      ((false, "Invalid email or password", none), users_df)
    else
      let updated := users_df.map (fun r =>
        if r.email == email then { r with last_login := now } else r)
      ((true, "Login successful",
        some ⟨user_data.user_id, user_data.name, user_data.role⟩), updated)

/-! ### College-Counseling `backend/applications.py` (`ApplicationManager`) -/

/-- A row of `data/applications.csv`. -/
structure AppRow where
  application_id : String
  user_id : String
  job_id : String
  applied_date : String
  status : String
  deriving DecidableEq, Repr

/-- A column of the applications table, for the `updates` dictionary of
`update_application`. -/
inductive AppField where
  | application_id | user_id | job_id | applied_date | status
  deriving DecidableEq, Repr

/-- `df.at[idx, key] = value` for one key. -/
def setField (r : AppRow) : AppField → String → AppRow
  | AppField.application_id, v => { r with application_id := v }
  | AppField.user_id, v => { r with user_id := v }
  | AppField.job_id, v => { r with job_id := v }
  | AppField.applied_date, v => { r with applied_date := v }
  | AppField.status, v => { r with status := v }

/-- `for key, value in updates.items(): df.at[idx[0], key] = value`. -/
def applyUpdates (r : AppRow) (updates : List (AppField × String)) : AppRow :=
  updates.foldl (fun acc p => setField acc p.1 p.2) r

/-- `ApplicationManager.create_application`: synthesize the identifier
`"APP_" + now.strftime('%Y%m%d%H%M%S')` from the wall clock, stamp the
identifier and the ISO applied date onto the submitted data, append the row
and rewrite the table.  `nowCompact` and `nowIso` are the two renderings of
the same `datetime.now()` reads.  Returns the new table and the generated
identifier. -/
def create_application (applications_df : List AppRow) (application_data : AppRow)
    (nowCompact nowIso : String) : List AppRow × String :=
  let application_id := "APP_" ++ nowCompact
  let row := { application_data with application_id := application_id,
                                     applied_date := nowIso }
  (applications_df ++ [row], application_id)

/-- `ApplicationManager.update_application`: locate the rows whose
`application_id` matches, apply the updates to the *first* such row only
(`idx[0]`), and report whether a match existed. -/
def update_application (applications_df : List AppRow) (application_id : String)
    (updates : List (AppField × String)) : List AppRow × Bool :=
  match applications_df with
  | [] => ([], false)
  | r :: rest =>
    if r.application_id == application_id then
      (applyUpdates r updates :: rest, true)
    else
      let tail := update_application rest application_id updates
      (r :: tail.1, tail.2)

/-- `ApplicationManager.delete_application`: keep every row whose
`application_id` differs (so *all* matching rows are removed), and report
whether the table shrank. -/
def delete_application (applications_df : List AppRow) (application_id : String) :
    List AppRow × Bool :=
  let remaining := applications_df.filter (fun r => !(r.application_id == application_id))
  (remaining, decide (remaining.length < applications_df.length))

/-! ## Theorems -/

/-! ### C1: the conversation log is a FIFO ring of capacity `max_messages` -/

lemma add_message_messages (mem : ConversationMemory) (m : Message) :
    (add_message mem m).messages =
      if (mem.messages ++ [m]).length > mem.max_messages
      then (mem.messages ++ [m]).drop 1 else mem.messages ++ [m] := by
  cases m with
  | mk content type sender => cases type <;> cases content <;> rfl

lemma add_message_max_messages (mem : ConversationMemory) (m : Message) :
    (add_message mem m).max_messages = mem.max_messages := by
  cases m with
  | mk content type sender => cases type <;> cases content <;> rfl

/-- The log after any run of `add_message` calls is the suffix of the full
append history that fits in the capacity, provided the starting log is within
capacity. -/
lemma foldl_add_message_messages :
    ∀ (ms : List Message) (mem : ConversationMemory),
      mem.messages.length ≤ mem.max_messages →
      (List.foldl add_message mem ms).messages =
        (mem.messages ++ ms).drop
          ((mem.messages.length + ms.length) - mem.max_messages) := by
  intro ms
  induction ms with
  | nil =>
    intro mem h
    simp [Nat.sub_eq_zero_of_le h]
  | cons m rest ih =>
    intro mem h
    rw [List.foldl_cons]
    have hmax := add_message_max_messages mem m
    have hmsg := add_message_messages mem m
    by_cases hc : (mem.messages ++ [m]).length > mem.max_messages
    · -- capacity reached: the oldest entry is evicted
      have hlen : mem.messages.length = mem.max_messages := by
        simp only [List.length_append, List.length_cons, List.length_nil] at hc
        omega
      rw [if_pos hc] at hmsg
      have hinv : (add_message mem m).messages.length ≤ (add_message mem m).max_messages := by
        rw [hmsg, hmax, List.length_drop]
        simp only [List.length_append, List.length_cons, List.length_nil]
        omega
      rw [ih _ hinv, hmsg, hmax]
      have h1 : (1 : Nat) ≤ (mem.messages ++ [m]).length := by
        simp only [List.length_append, List.length_cons, List.length_nil]; omega
      rw [← List.drop_append_of_le_length h1, List.drop_drop]
      have hdroplen : ((mem.messages ++ [m]).drop 1).length = mem.max_messages := by
        rw [List.length_drop]
        simp only [List.length_append, List.length_cons, List.length_nil]
        omega
      rw [hdroplen]
      have : (mem.messages ++ [m]) ++ rest = mem.messages ++ m :: rest := by
        simp
      rw [this]
      congr 1
      simp only [List.length_cons]
      omega
    · -- still under capacity: plain append
      rw [if_neg hc] at hmsg
      have hinv : (add_message mem m).messages.length ≤ (add_message mem m).max_messages := by
        rw [hmsg, hmax]
        simp only [List.length_append, List.length_cons, List.length_nil] at hc ⊢
        omega
      rw [ih _ hinv, hmsg, hmax]
      have : (mem.messages ++ [m]) ++ rest = mem.messages ++ m :: rest := by
        simp
      rw [this]
      congr 1
      simp only [List.length_append, List.length_cons, List.length_nil]
      omega

/-- Claim C1: for every capacity `cap ≥ 1` and every sequence of
`add_message` calls on a memory constructed with `max_messages = cap`, the
stored message list is exactly the `cap` most recently added messages in
insertion (oldest-first) order — the `(length - cap)`-suffix of the full
insertion sequence — and in particular never exceeds `cap` entries. -/
theorem conversation_memory_bounded (cap : Nat) (ms : List Message)
    (hcap : 1 ≤ cap) :
    (List.foldl add_message (ConversationMemory.init cap) ms).messages
      = ms.drop (ms.length - cap) ∧
    (List.foldl add_message (ConversationMemory.init cap) ms).messages.length ≤ cap := by
  have h := foldl_add_message_messages ms (ConversationMemory.init cap)
    (by simp [ConversationMemory.init])
  have h' : (List.foldl add_message (ConversationMemory.init cap) ms).messages
      = ms.drop (ms.length - cap) := by
    simpa [ConversationMemory.init] using h
  refine ⟨h', ?_⟩
  rw [h', List.length_drop]
  omega

/-- Witness for C1: capacity 2, three insertions — the log holds exactly the
last two messages, oldest first. -/
theorem conversation_memory_bounded_witness :
    1 ≤ 2 ∧
    (List.foldl add_message (ConversationMemory.init 2)
        [⟨MsgContent.text "a", MessageType.TEXT, "user"⟩,
         ⟨MsgContent.text "b", MessageType.TEXT, "user"⟩,
         ⟨MsgContent.text "c", MessageType.TEXT, "user"⟩]).messages
      = [⟨MsgContent.text "b", MessageType.TEXT, "user"⟩,
         ⟨MsgContent.text "c", MessageType.TEXT, "user"⟩] :=
  ⟨by decide,
   (conversation_memory_bounded 2
      [⟨MsgContent.text "a", MessageType.TEXT, "user"⟩,
       ⟨MsgContent.text "b", MessageType.TEXT, "user"⟩,
       ⟨MsgContent.text "c", MessageType.TEXT, "user"⟩] (by decide)).1.trans (by decide)⟩

/-! ### C2: the derived context sets only grow -/

lemma mem_insertNew {lab : String} {l : List String} (y : String)
    (h : lab ∈ l) : lab ∈ insertNew l y := by
  unfold insertNew
  split
  · exact h
  · exact List.mem_append_left _ h

lemma mem_foldl_of_step {β : Type} {lab : String}
    (f : List String → β → List String)
    (hf : ∀ acc b, lab ∈ acc → lab ∈ f acc b) :
    ∀ (l : List β) (acc : List String), lab ∈ acc → lab ∈ List.foldl f acc l := by
  intro l
  induction l with
  | nil => intro acc h; simpa using h
  | cons b rest ih =>
    intro acc h
    rw [List.foldl_cons]
    exact ih _ (hf _ _ h)

lemma update_context_topics_mono {lab : String} (ctx : ConversationContext)
    (content : String) (h : lab ∈ ctx.topics) :
    lab ∈ (update_context ctx content).topics := by
  refine mem_foldl_of_step _ ?_ _ _ h
  intro acc b hm
  split
  · exact mem_insertNew _ hm
  · exact hm

lemma update_context_skills_mono {lab : String} (ctx : ConversationContext)
    (content : String) (h : lab ∈ ctx.skills_mentioned) :
    lab ∈ (update_context ctx content).skills_mentioned := by
  refine mem_foldl_of_step _ ?_ _ _ h
  intro acc b hm
  split
  · exact mem_insertNew _ hm
  · exact hm

lemma update_context_companies_mono {lab : String} (ctx : ConversationContext)
    (content : String) (h : lab ∈ ctx.companies_mentioned) :
    lab ∈ (update_context ctx content).companies_mentioned := by
  refine mem_foldl_of_step _ ?_ _ _ h
  intro acc b hm
  split
  · exact mem_insertNew _ hm
  · exact hm

lemma add_message_context_mono {lab : String} (mem : ConversationMemory)
    (m : Message) :
    (lab ∈ mem.conversation_context.topics →
       lab ∈ (add_message mem m).conversation_context.topics) ∧
    (lab ∈ mem.conversation_context.skills_mentioned →
       lab ∈ (add_message mem m).conversation_context.skills_mentioned) ∧
    (lab ∈ mem.conversation_context.companies_mentioned →
       lab ∈ (add_message mem m).conversation_context.companies_mentioned) := by
  cases m with
  | mk content type sender =>
    cases type <;> cases content <;>
      simp only [add_message] <;>
      first
        | exact ⟨fun h => update_context_topics_mono _ _ h,
                 fun h => update_context_skills_mono _ _ h,
                 fun h => update_context_companies_mono _ _ h⟩
        | exact ⟨fun h => h, fun h => h, fun h => h⟩

/-- Claim C2: within a session, the derived context sets of
`ConversationMemory` grow monotonically — a label present in `topics`,
`skills_mentioned` or `companies_mentioned` in any reachable state is still
present after every further sequence of `add_message` calls. -/
theorem context_sets_monotone (mem : ConversationMemory) (ms : List Message)
    (lab : String) :
    (lab ∈ mem.conversation_context.topics →
       lab ∈ (List.foldl add_message mem ms).conversation_context.topics) ∧
    (lab ∈ mem.conversation_context.skills_mentioned →
       lab ∈ (List.foldl add_message mem ms).conversation_context.skills_mentioned) ∧
    (lab ∈ mem.conversation_context.companies_mentioned →
       lab ∈ (List.foldl add_message mem ms).conversation_context.companies_mentioned) := by
  induction ms generalizing mem with
  | nil => exact ⟨fun h => h, fun h => h, fun h => h⟩
  | cons m rest ih =>
    rw [List.foldl_cons]
    have hstep := @add_message_context_mono lab mem m
    have hrest := ih (add_message mem m)
    exact ⟨fun h => hrest.1 (hstep.1 h),
           fun h => hrest.2.1 (hstep.2.1 h),
           fun h => hrest.2.2 (hstep.2.2 h)⟩

/-- Witness for C2: labels present in the three sets survive a further
message. -/
theorem context_sets_monotone_witness :
    ("technical" ∈ (List.foldl add_message
        ⟨[], 50, ⟨["technical"], ["python"], ["google"], none⟩⟩
        [⟨MsgContent.text "hello there", MessageType.TEXT, "user"⟩]).conversation_context.topics) ∧
    ("python" ∈ (List.foldl add_message
        ⟨[], 50, ⟨["technical"], ["python"], ["google"], none⟩⟩
        [⟨MsgContent.text "hello there", MessageType.TEXT, "user"⟩]).conversation_context.skills_mentioned) ∧
    ("google" ∈ (List.foldl add_message
        ⟨[], 50, ⟨["technical"], ["python"], ["google"], none⟩⟩
        [⟨MsgContent.text "hello there", MessageType.TEXT, "user"⟩]).conversation_context.companies_mentioned) :=
  ⟨(context_sets_monotone ⟨[], 50, ⟨["technical"], ["python"], ["google"], none⟩⟩
      [⟨MsgContent.text "hello there", MessageType.TEXT, "user"⟩] "technical").1 (by decide),
   (context_sets_monotone ⟨[], 50, ⟨["technical"], ["python"], ["google"], none⟩⟩
      [⟨MsgContent.text "hello there", MessageType.TEXT, "user"⟩] "python").2.1 (by decide),
   (context_sets_monotone ⟨[], 50, ⟨["technical"], ["python"], ["google"], none⟩⟩
      [⟨MsgContent.text "hello there", MessageType.TEXT, "user"⟩] "google").2.2 (by decide)⟩

/-! ### C3: current focus is the first matching category, and overwrites -/

/-- Claim C3: `_update_context` resolves the current focus by scanning the
categories in the fixed priority order technical, conceptual, practical,
career and taking the *first* category with a matching indicator, overwriting
any previous focus; only when no category matches is the previous focus kept.
The result is a single `Option`-valued label, never a union — in particular a
message matching several categories gets exactly the first matching one. -/
theorem current_focus_priority (ctx : ConversationContext) (content : String) :
    (update_context ctx content).current_focus =
      (if anyKeywordIn (pyLower content) ["how to", "example", "code", "implement"]
         then some "technical"
       else if anyKeywordIn (pyLower content) ["explain", "what is", "understand", "concept"]
         then some "conceptual"
       else if anyKeywordIn (pyLower content) ["apply", "use", "practice", "real world"]
         then some "practical"
       else if anyKeywordIn (pyLower content) ["career", "job", "future", "growth"]
         then some "career"
       else ctx.current_focus) := rfl

/-! ### C4: the mock interview is strictly linear over the 3-question bank -/

/-- Claim C4: starting the mock interview (from any prior interview state)
and supplying three answers drives the state machine strictly linearly back
to inactive: the start activates the fixed 3-question bank and emits question
1; each of the first two answers yields exactly a feedback message followed
by the next question; the third answer yields a feedback message followed by
the closing message and clears the active flag.  The four equations pin down
every transition and output completely, so there is no branching or
repetition. -/
theorem mock_interview_linear (gen : String → Option String)
    (s0 : MockInterviewState) (a1 a2 a3 : String) :
    start_mock_interview s0 =
      (⟨true, get_mock_interview_questions, 1⟩,
       [⟨MsgContent.text "Let\x27s begin the mock technical interview.\n\n**Question 1:** Can you explain the concept of polymorphism in object-oriented programming?",
         MessageType.INTERVIEW, "bot"⟩]) ∧
    process_mock_interview_response gen ⟨true, get_mock_interview_questions, 1⟩ a1 =
      (⟨true, get_mock_interview_questions, 2⟩,
       [⟨MsgContent.text ("**Feedback:** " ++
           (gen (evaluationPrompt "Can you explain the concept of polymorphism in object-oriented programming?" a1)).getD
             "Unable to provide feedback at this time."),
         MessageType.INTERVIEW, "bot"⟩,
        ⟨MsgContent.text "**Question 2:** How does a binary search algorithm work?",
         MessageType.INTERVIEW, "bot"⟩]) ∧
    process_mock_interview_response gen ⟨true, get_mock_interview_questions, 2⟩ a2 =
      (⟨true, get_mock_interview_questions, 3⟩,
       [⟨MsgContent.text ("**Feedback:** " ++
           (gen (evaluationPrompt "How does a binary search algorithm work?" a2)).getD
             "Unable to provide feedback at this time."),
         MessageType.INTERVIEW, "bot"⟩,
        ⟨MsgContent.text "**Question 3:** What are the differences between TCP and UDP protocols?",
         MessageType.INTERVIEW, "bot"⟩]) ∧
    process_mock_interview_response gen ⟨true, get_mock_interview_questions, 3⟩ a3 =
      (⟨false, get_mock_interview_questions, 3⟩,
       [⟨MsgContent.text ("**Feedback:** " ++
           (gen (evaluationPrompt "What are the differences between TCP and UDP protocols?" a3)).getD
             "Unable to provide feedback at this time."),
         MessageType.INTERVIEW, "bot"⟩,
        ⟨MsgContent.text "This concludes the mock interview. Great job! If you\x27d like to practice more, let me know.",
         MessageType.INTERVIEW, "bot"⟩]) :=
  ⟨rfl, rfl, rfl, rfl⟩

/-! ### C5: a model failure yields exactly one terminal error message -/

lemma processChunks_all_text (chunks : List (Option String)) :
    ∀ (cur : String), ∀ m ∈ (processChunks cur chunks).2, m.type = MessageType.TEXT := by
  induction chunks with
  | nil =>
    intro cur m hm
    simp [processChunks] at hm
  | cons c rest ih =>
    intro cur m hm
    cases c with
    | none => exact ih cur m (by simpa [processChunks] using hm)
    | some s =>
      by_cases hs : s = ""
      · exact ih cur m (by simpa [processChunks, hs] using hm)
      · simp only [processChunks, if_neg hs, List.mem_cons] at hm
        rcases hm with rfl | hm'
        · rfl
        · exact ih (cur ++ s) m hm'

/-- Claim C5: when the external model call raises (`failure = some e`), the
response generator yields exactly one error-typed message, that message is
the last one yielded (the generator terminates on it), and no suggestion
message is produced — the partial `TEXT` fragments already streamed are the
only other output, and there is no retry. -/
theorem get_response_error_single (mem : ConversationMemory) (query : String)
    (chunks : List (Option String)) (e : String)
    (shuffle : List String → List String) :
    ((get_response mem query chunks (some e) shuffle).2.filter
        (fun m => m.type == MessageType.ERROR)).length = 1 ∧
    (get_response mem query chunks (some e) shuffle).2.getLast?
      = some ⟨MsgContent.text (responseErrorText e), MessageType.ERROR, "bot"⟩ ∧
    (get_response mem query chunks (some e) shuffle).2.filter
        (fun m => m.type == MessageType.SUGGESTION) = [] := by
  have hout : (get_response mem query chunks (some e) shuffle).2
      = (processChunks "" chunks).2
        ++ [⟨MsgContent.text (responseErrorText e), MessageType.ERROR, "bot"⟩] := rfl
  have htext := processChunks_all_text chunks ""
  have herr : (processChunks "" chunks).2.filter
      (fun m => m.type == MessageType.ERROR) = [] := by
    rw [List.filter_eq_nil_iff]
    intro m hm
    simp [htext m hm]
  have hsug : (processChunks "" chunks).2.filter
      (fun m => m.type == MessageType.SUGGESTION) = [] := by
    rw [List.filter_eq_nil_iff]
    intro m hm
    simp [htext m hm]
  refine ⟨?_, ?_, ?_⟩
  · rw [hout, List.filter_append, herr]
    rfl
  · rw [hout]
    exact List.getLast?_concat _
  · rw [hout, List.filter_append, hsug]
    rfl

/-! ### C6: suggestions are ≤ 3, duplicate-free and drawn from the canned
pool -/

/-- Claim C6: `_generate_suggestions` returns at most 3 strings, with no
duplicates, all drawn from the canned candidate pool determined by the
detected topics and the accumulated skills and companies
(`suggestionCandidates`).  The hypothesis states the only property the source
obtains from `random`: `sorted(list(set(s)), key=lambda _: random.random())`
is a permutation of the de-duplicated candidates. -/
theorem generate_suggestions_spec (ctx : ConversationContext)
    (shuffle : List String → List String)
    (hperm : (shuffle (suggestionCandidates ctx).dedup).Perm
      (suggestionCandidates ctx).dedup) :
    (generate_suggestions ctx shuffle).length ≤ 3 ∧
    (generate_suggestions ctx shuffle).Nodup ∧
    generate_suggestions ctx shuffle ⊆ suggestionCandidates ctx := by
  by_cases hemp : (suggestionCandidates ctx).isEmpty
  · have hg : generate_suggestions ctx shuffle = [] := by
      simp [generate_suggestions, hemp]
    rw [hg]
    exact ⟨by simp, List.nodup_nil, by simp⟩
  · have hg : generate_suggestions ctx shuffle
        = (shuffle (suggestionCandidates ctx).dedup).take 3 := by
      simp [generate_suggestions, hemp]
    rw [hg]
    refine ⟨List.length_take_le _ _, ?_, ?_⟩
    · exact (List.take_sublist _ _).nodup
        (hperm.nodup_iff.mpr (List.nodup_dedup _))
    · intro x hx
      have hx1 : x ∈ shuffle (suggestionCandidates ctx).dedup :=
        (List.take_sublist _ _).subset hx
      exact (List.dedup_sublist _).subset (hperm.subset hx1)

/-- Witness for C6 at a context with a detected topic, a skill and a
company, with the identity permutation. -/
theorem generate_suggestions_spec_witness :
    (generate_suggestions ⟨["technical"], ["python"], ["google"], none⟩ id).length ≤ 3 ∧
    (generate_suggestions ⟨["technical"], ["python"], ["google"], none⟩ id).Nodup ∧
    generate_suggestions ⟨["technical"], ["python"], ["google"], none⟩ id
      ⊆ suggestionCandidates ⟨["technical"], ["python"], ["google"], none⟩ :=
  generate_suggestions_spec ⟨["technical"], ["python"], ["google"], none⟩ id
    (List.Perm.refl _)

/-! ### C7: resume analysis summarises only above the 1000-character
threshold -/

/-- Claim C7: with a previously extracted resume, `analyze_resume` on text
longer than 1000 characters first sends the summarisation prompt and then the
critique prompt (on the possibly summarised text); on text of at most 1000
characters it sends only the critique prompt; in both cases the critique is
emitted as a single `RESUME_FEEDBACK` message. -/
theorem analyze_resume_threshold (gen : String → Option String)
    (text : String) (hnonempty : text ≠ "") :
    (text.length > 1000 →
      analyze_resume gen true text =
        ([summaryPromptOf text,
          critiquePromptOf ((gen (summaryPromptOf text)).getD (strTake text 1000))],
         [⟨MsgContent.text
             ((gen (critiquePromptOf ((gen (summaryPromptOf text)).getD (strTake text 1000)))).getD
               "Unable to analyze resume at this time."),
           MessageType.RESUME_FEEDBACK, "bot"⟩])) ∧
    (text.length ≤ 1000 →
      analyze_resume gen true text =
        ([critiquePromptOf text],
         [⟨MsgContent.text ((gen (critiquePromptOf text)).getD
             "Unable to analyze resume at this time."),
           MessageType.RESUME_FEEDBACK, "bot"⟩])) := by
  constructor
  · intro hlen
    unfold analyze_resume
    rw [if_pos (by simp [hnonempty]), if_pos hlen]
  · intro hlen
    unfold analyze_resume
    rw [if_pos (by simp [hnonempty]), if_neg (by omega)]

/-- Witness for C7: a short resume produces exactly one critique call and one
feedback message. -/
theorem analyze_resume_threshold_witness :
    ("short resume" : String) ≠ "" ∧
    analyze_resume (fun _ => none) true "short resume" =
      ([critiquePromptOf "short resume"],
       [⟨MsgContent.text "Unable to analyze resume at this time.",
         MessageType.RESUME_FEEDBACK, "bot"⟩]) :=
  ⟨by decide,
   ((analyze_resume_threshold (fun _ => none) "short resume" (by decide)).2
      (by decide)).trans (by decide)⟩

/-! ### C8: a salary string with no digit run makes the job listing raise -/

lemma salaryFirstRun_error {r : JobRow}
    (h : (reFindallDigits r.salary_range).isEmpty = true) :
    salaryFirstRun r = Except.error indexErrorMsg := by
  unfold salaryFirstRun
  cases hr : reFindallDigits r.salary_range with
  | nil => rfl
  | cons d rest => rw [hr] at h; simp at h

/-- The `salary_min` column derivation — the first digit-extraction call of
`get_jobs` / `get_job_statistics` — raises as soon as any row's
`salary_range` contains no digit run. -/
lemma applyCol_salaryFirstRun_error :
    ∀ (rows : List JobRow),
      rows.any (fun r => (reFindallDigits r.salary_range).isEmpty) = true →
      applyCol salaryFirstRun rows = Except.error indexErrorMsg := by
  intro rows
  induction rows with
  | nil => intro h; simp at h
  | cons r rest ih =>
    intro h
    have hstep : applyCol salaryFirstRun (r :: rest)
        = (salaryFirstRun r).bind
            (fun v => (applyCol salaryFirstRun rest).bind
              (fun vs => Except.ok (v :: vs))) := rfl
    by_cases hr : (reFindallDigits r.salary_range).isEmpty = true
    · rw [hstep, salaryFirstRun_error hr]
      rfl
    · have hrest : rest.any (fun r => (reFindallDigits r.salary_range).isEmpty) = true := by
        rw [List.any_cons] at h
        rcases Bool.or_eq_true_iff.mp h with h1 | h2
        · exact absurd h1 hr
        · exact h2
      cases hfr : reFindallDigits r.salary_range with
      | nil => rw [hfr] at hr; simp at hr
      | cons d ds =>
        have hok : salaryFirstRun r = Except.ok (digitsToNat d : ℚ) := by
          unfold salaryFirstRun
          rw [hfr]
          rfl
        rw [hstep, hok, ih hrest]
        rfl

/-- Claim C8: if any stored job record's `salary_range` contains no digit
run, both `get_jobs` (under any filters) and `get_job_statistics` raise an
uncaught `IndexError` at the first digit-extraction call (the `salary_min`
column derivation) — the exception propagates as `Except.error`; there is no
designed error path. -/
theorem malformed_salary_raises (rows : List JobRow)
    (filters : Option JobFilters) (now : Int)
    (hbad : rows.any (fun r => (reFindallDigits r.salary_range).isEmpty) = true) :
    get_jobs rows filters = Except.error indexErrorMsg ∧
    get_job_statistics rows now = Except.error indexErrorMsg := by
  have hmin := applyCol_salaryFirstRun_error rows hbad
  constructor
  · unfold get_jobs
    rw [hmin]
    rfl
  · unfold get_job_statistics
    rw [hmin]
    rfl

/-- Witness for C8: a job whose salary is the free-text `"Competitive"`
(no digit run) breaks both the listing and the statistics. -/
theorem malformed_salary_raises_witness :
    ([⟨"1", "Engineer", "Acme", "Pune", "Competitive", "Full-time", 0, "d", "python", "Open"⟩]
        : List JobRow).any (fun r => (reFindallDigits r.salary_range).isEmpty) = true ∧
    get_jobs [⟨"1", "Engineer", "Acme", "Pune", "Competitive", "Full-time", 0, "d", "python", "Open"⟩] none
      = Except.error indexErrorMsg ∧
    get_job_statistics [⟨"1", "Engineer", "Acme", "Pune", "Competitive", "Full-time", 0, "d", "python", "Open"⟩] 0
      = Except.error indexErrorMsg :=
  ⟨by decide,
   (malformed_salary_raises
      [⟨"1", "Engineer", "Acme", "Pune", "Competitive", "Full-time", 0, "d", "python", "Open"⟩]
      none 0 (by decide)).1,
   (malformed_salary_raises
      [⟨"1", "Engineer", "Acme", "Pune", "Competitive", "Full-time", 0, "d", "python", "Open"⟩]
      none 0 (by decide)).2⟩

/-! ### C9: successful login, and the case-sensitivity slip in the
last-login update

The user lookup compares emails case-insensitively
(`df['email'].str.lower() == email.lower()`), but the subsequent last-login
update masks rows with `df['email'] == email`, a *case-sensitive* comparison
against the supplied string.  A login whose supplied email differs from the
stored one only in case therefore succeeds without touching any stored
record. -/

/-- The users table of the counterexample and witness: the seeded admin
user. -/
def authUsersTable : List UserRec :=
  [⟨"USR_001", "admin@atlas.edu", "admin123", "admin", "Admin User",
    "Administration", "NA", "2024-01-01T00:00:00", "OLD"⟩]

/-- Counterexample to C9 as stated: logging in as `"Admin@atlas.edu"`
(matching the stored `"admin@atlas.edu"` case-insensitively) with the correct
password returns success and the user's identifier, name and role, yet the
returned users table is *unchanged* — in particular the stored last-login
timestamp is still `"OLD"`, not the supplied clock value `"T1"`. -/
theorem authenticate_user_last_login_cex :
    (authenticate_user authUsersTable "Admin@atlas.edu" "admin123" "T1").1.1 = true ∧
    (authenticate_user authUsersTable "Admin@atlas.edu" "admin123" "T1").1.2.2
      = some ⟨"USR_001", "Admin User", "admin"⟩ ∧
    (authenticate_user authUsersTable "Admin@atlas.edu" "admin123" "T1").2
      = authUsersTable := by
  decide

/-- Claim C9 as amended: for every successful login — a stored user matching
the supplied email case-insensitively with the matching stored password —
`authenticate_user` returns success with the first matching user's
identifier, name and role, and stamps the last-login timestamp on exactly the
rows whose stored email equals the supplied email string *case-sensitively*
(so a login whose email matches only up to case mutates no record). -/
theorem authenticate_user_success (users_df : List UserRec)
    (email password now : String) (u : UserRec)
    (hfind : (users_df.filter (fun x => pyLower x.email == pyLower email)).head?
      = some u)
    (hpw : password = u.password) :
    authenticate_user users_df email password now =
      ((true, "Login successful", some ⟨u.user_id, u.name, u.role⟩),
       users_df.map (fun r =>
         if r.email == email then { r with last_login := now } else r)) := by
  unfold authenticate_user
  rw [hfind]
  simp [hpw]

/-- Witness for the amended C9: an exact-case login succeeds and stamps the
matching row's last-login. -/
theorem authenticate_user_success_witness :
    authenticate_user authUsersTable "admin@atlas.edu" "admin123" "T1" =
      ((true, "Login successful", some ⟨"USR_001", "Admin User", "admin"⟩),
       [⟨"USR_001", "admin@atlas.edu", "admin123", "admin", "Admin User",
         "Administration", "NA", "2024-01-01T00:00:00", "T1"⟩]) :=
  (authenticate_user_success authUsersTable "admin@atlas.edu" "admin123" "T1"
      ⟨"USR_001", "admin@atlas.edu", "admin123", "admin", "Admin User",
       "Administration", "NA", "2024-01-01T00:00:00", "OLD"⟩
      (by decide) rfl).trans (by decide)

/-! ### C10: clock-second application identifiers; update hits the first
match, delete removes all matches -/

lemma update_application_first_match
    (app_id : String) (upd : List (AppField × String)) :
    ∀ (pre : List AppRow) (r : AppRow) (post : List AppRow),
      pre.all (fun x => !(x.application_id == app_id)) = true →
      r.application_id = app_id →
      update_application (pre ++ r :: post) app_id upd
        = (pre ++ applyUpdates r upd :: post, true) := by
  intro pre
  induction pre with
  | nil =>
    intro r post _ hr
    simp [update_application, hr]
  | cons x pre' ih =>
    intro r post hall hr
    rw [List.all_cons] at hall
    have hx : (x.application_id == app_id) = false := by
      rcases Bool.and_eq_true_iff.mp hall with ⟨h1, _⟩
      simp at h1
      simp [h1]
    have hrec := ih r post (Bool.and_eq_true_iff.mp hall).2 hr
    simp [update_application, hx, hrec]

lemma delete_application_no_match_left (df : List AppRow) (app_id : String) :
    (delete_application df app_id).1.all
      (fun x => !(x.application_id == app_id)) = true := by
  rw [List.all_eq_true]
  intro x hx
  exact (List.mem_filter.mp hx).2

lemma delete_application_shrinks (pre : List AppRow) (r : AppRow)
    (post : List AppRow) (app_id : String) (hr : r.application_id = app_id) :
    (delete_application (pre ++ r :: post) app_id).2 = true := by
  unfold delete_application
  rw [decide_eq_true_eq]
  rw [List.filter_append, List.filter_cons_of_neg (by simp [hr])]
  have h1 := List.length_filter_le (fun x => !(x.application_id == app_id)) pre
  have h2 := List.length_filter_le (fun x => !(x.application_id == app_id)) post
  simp only [List.length_append, List.length_cons]
  omega

/-- Claim C10: `create_application` derives the identifier purely from the
one-second-resolution wall clock (`"APP_" ++ YYYYMMDDHHMMSS`), so two
applications created during the same clock second get identical identifiers;
on a table containing such duplicates, `update_application` mutates only the
*first* matching row (any later matching rows, here in `post`, are returned
untouched), while `delete_application` removes *every* matching row and
reports that the table shrank. -/
theorem application_id_collision_semantics
    (df1 df2 : List AppRow) (d1 d2 : AppRow) (now iso1 iso2 : String)
    (pre post : List AppRow) (r : AppRow) (app_id : String)
    (upd : List (AppField × String))
    (hpre : pre.all (fun x => !(x.application_id == app_id)) = true)
    (hr : r.application_id = app_id) :
    (create_application df1 d1 now iso1).2 = "APP_" ++ now ∧
    (create_application df1 d1 now iso1).2 = (create_application df2 d2 now iso2).2 ∧
    update_application (pre ++ r :: post) app_id upd
      = (pre ++ applyUpdates r upd :: post, true) ∧
    (delete_application (pre ++ r :: post) app_id).1.all
      (fun x => !(x.application_id == app_id)) = true ∧
    (delete_application (pre ++ r :: post) app_id).2 = true :=
  ⟨rfl, rfl,
   update_application_first_match app_id upd pre r post hpre hr,
   delete_application_no_match_left _ _,
   delete_application_shrinks pre r post app_id hr⟩

/-- Witness for C10 on a table holding two rows with the same generated
identifier: the update touches only the first of them, the delete removes
both. -/
theorem application_id_collision_semantics_witness :
    update_application
        [⟨"APP_20240101000000", "u1", "j1", "d1", "Pending"⟩,
         ⟨"APP_20240101000002", "u2", "j2", "d2", "Pending"⟩,
         ⟨"APP_20240101000002", "u3", "j3", "d3", "Pending"⟩]
        "APP_20240101000002" [(AppField.status, "Accepted")]
      = ([⟨"APP_20240101000000", "u1", "j1", "d1", "Pending"⟩,
          ⟨"APP_20240101000002", "u2", "j2", "d2", "Accepted"⟩,
          ⟨"APP_20240101000002", "u3", "j3", "d3", "Pending"⟩], true) ∧
    (delete_application
        [⟨"APP_20240101000000", "u1", "j1", "d1", "Pending"⟩,
         ⟨"APP_20240101000002", "u2", "j2", "d2", "Pending"⟩,
         ⟨"APP_20240101000002", "u3", "j3", "d3", "Pending"⟩]
        "APP_20240101000002").1.all
      (fun x => !(x.application_id == "APP_20240101000002")) = true ∧
    (delete_application
        [⟨"APP_20240101000000", "u1", "j1", "d1", "Pending"⟩,
         ⟨"APP_20240101000002", "u2", "j2", "d2", "Pending"⟩,
         ⟨"APP_20240101000002", "u3", "j3", "d3", "Pending"⟩]
        "APP_20240101000002").2 = true :=
  ⟨((application_id_collision_semantics [] [] ⟨"", "", "", "", ""⟩ ⟨"", "", "", "", ""⟩
        "20240101000002" "" ""
        [⟨"APP_20240101000000", "u1", "j1", "d1", "Pending"⟩]
        [⟨"APP_20240101000002", "u3", "j3", "d3", "Pending"⟩]
        ⟨"APP_20240101000002", "u2", "j2", "d2", "Pending"⟩
        "APP_20240101000002" [(AppField.status, "Accepted")]
        (by decide) rfl).2.2.1).trans (by decide),
   (application_id_collision_semantics [] [] ⟨"", "", "", "", ""⟩ ⟨"", "", "", "", ""⟩
        "20240101000002" "" ""
        [⟨"APP_20240101000000", "u1", "j1", "d1", "Pending"⟩]
        [⟨"APP_20240101000002", "u3", "j3", "d3", "Pending"⟩]
        ⟨"APP_20240101000002", "u2", "j2", "d2", "Pending"⟩
        "APP_20240101000002" [(AppField.status, "Accepted")]
        (by decide) rfl).2.2.2.1,
   (application_id_collision_semantics [] [] ⟨"", "", "", "", ""⟩ ⟨"", "", "", "", ""⟩
        "20240101000002" "" ""
        [⟨"APP_20240101000000", "u1", "j1", "d1", "Pending"⟩]
        [⟨"APP_20240101000002", "u3", "j3", "d3", "Pending"⟩]
        ⟨"APP_20240101000002", "u2", "j2", "d2", "Pending"⟩
        "APP_20240101000002" [(AppField.status, "Accepted")]
        (by decide) rfl).2.2.2.2⟩

end Placement
